import Mathlib

/-!
Verification of the Borromean geological-risk scoring engine.

The development shallowly embeds the numerical core of the repository:
`risk_calculator.py` (factor computation, gated Borromean combination,
Monte Carlo uncertainty) and `ai_agents/lore_calculator.py` together with
the constants of `ai_agents/config.py` (local-lore evidentiary scoring).
Python floats are modelled as real numbers; `None`-able arguments as
`Option`; exceptions (NumPy raising on empty arrays) as `Option.none`.
The Monte Carlo sampler is derandomised: the Gaussian draws of each
iteration are an explicit list of noise triples `(noise_H, noise_L,
noise_V)`, so `n_samples` is the length of that list.  This covers both
the correlated and the uncorrelated branch of the source, since each
iteration of either branch produces exactly such a triple before the
deterministic tail of the loop body runs.
-/

namespace GeoRisk

/-- Structure `RiskConfig` from `risk_calculator.py` (dataclass defaults included). -/
structure RiskConfig where
  hazard_type : String := "landslide"
  tau_H : ℝ := 0.35
  tau_L : ℝ := 0.25
  tau_V : ℝ := 0.30
  lambda_mix : ℝ := 0.7
  kappa_synergy : ℝ := 0.3
  alpha : ℝ := 1.0
  beta : ℝ := 1.0
  gamma : ℝ := 1.0

/-- The default configuration `RiskConfig()`. -/
noncomputable def defaultConfig : RiskConfig := {}

/-- Function `np.clip(x, lo, hi)` for scalars (with `lo ≤ hi`, as used throughout). -/
noncomputable def clip (x lo hi : ℝ) : ℝ := max lo (min x hi)

/-- Function `logistic(x, k, x0) = 1/(1 + exp(-k*(x - x0)))` from `risk_calculator.py`. -/
noncomputable def logistic (x k x0 : ℝ) : ℝ :=
  1 / (1 + Real.exp (-k * (x - x0)))

/-- Function `compute_H` from `risk_calculator.py`.  The source also takes a
`hazard_type` string which its body never reads; it is omitted here. -/
noncomputable def compute_H (slope_deg curvature lith_erod rain_exceed : ℝ) : ℝ :=
  let slope_term := logistic slope_deg 0.15 20
  let curv_term := logistic (-curvature) 0.8 0
  let lith_term := lith_erod
  let rain_term := rain_exceed
  clip (0.4 * slope_term + 0.15 * curv_term + 0.15 * lith_term + 0.3 * rain_term) 0 1

/-- Function `compute_L` from `risk_calculator.py`. -/
noncomputable def compute_L (lore_signal : ℝ) : ℝ :=
  clip lore_signal 0 1

/-- Function `compute_V` from `risk_calculator.py` (the `criticality_weight`
parameter is unused by the source body, which hard-codes 0.7/0.3). -/
noncomputable def compute_V (exposure fragility : ℝ) : ℝ :=
  clip (0.7 * exposure + 0.3 * fragility) 0 1

/-- Function `borromean_score` from `risk_calculator.py`.  The returned `Bool`
`gate` of the source is modelled as a `Prop` (comparison of reals).
Exponentiation `H ** alpha` on floats is modelled by `Real.rpow`. -/
noncomputable def borromean_score (H L V : ℝ) (config : RiskConfig) : ℝ × Prop :=
  let gate : Prop := H > config.tau_H ∧ L > config.tau_L ∧ V > config.tau_V
  let R0 := H ^ config.alpha * L ^ config.beta * V ^ config.gamma
  let S := config.kappa_synergy * min H (min L V)
  let R := config.lambda_mix * R0 + (1 - config.lambda_mix) * S
  let Rgated := if gate then R else 0
  (clip Rgated 0 1, gate)

lemma clip_zero_eq : clip 0 0 1 = 0 := by
  simp [clip]

lemma clip_nonneg (x : ℝ) : 0 ≤ clip x 0 1 := le_max_left 0 _

lemma clip_le_one (x : ℝ) : clip x 0 1 ≤ 1 :=
  max_le (by norm_num) (min_le_right x 1)

lemma clip_eq_self {x : ℝ} (h0 : 0 ≤ x) (h1 : x ≤ 1) : clip x 0 1 = x := by
  rw [clip, min_eq_left h1, max_eq_right h0]

lemma clip_mono {x y : ℝ} (h : x ≤ y) : clip x 0 1 ≤ clip y 0 1 :=
  max_le_max le_rfl (min_le_min h le_rfl)

lemma logistic_pos (x k x0 : ℝ) : 0 < logistic x k x0 := by
  have h := Real.exp_pos (-k * (x - x0))
  exact div_pos one_pos (by linarith)

lemma logistic_lt_one (x k x0 : ℝ) : logistic x k x0 < 1 := by
  have h := Real.exp_pos (-k * (x - x0))
  rw [logistic, div_lt_one (by linarith)]
  linarith

/-- Claim C1: If any of H, L, V is at or below its threshold (the gate uses
strict `>` comparisons), `borromean_score` returns risk 0 and a failed
gate, whatever the other two factors are. -/
theorem borromean_gate_fails_zero (H L V : ℝ) (config : RiskConfig)
    (h : H ≤ config.tau_H ∨ L ≤ config.tau_L ∨ V ≤ config.tau_V) :
    (borromean_score H L V config).1 = 0 ∧ ¬ (borromean_score H L V config).2 := by
  have hgate : ¬ (H > config.tau_H ∧ L > config.tau_L ∧ V > config.tau_V) := by
    rcases h with h | h | h
    · exact fun hg => absurd hg.1 (not_lt.mpr h)
    · exact fun hg => absurd hg.2.1 (not_lt.mpr h)
    · exact fun hg => absurd hg.2.2 (not_lt.mpr h)
  refine ⟨?_, hgate⟩
  simp only [borromean_score, if_neg hgate, clip_zero_eq]

/-- Witness for C1: H = 0.9, L = 0.9, V = 0.10 with the default
thresholds (tau_V = 0.30) yields R = 0 and a failed gate. -/
theorem borromean_gate_fails_zero_witness :
    (borromean_score 0.9 0.9 0.1 defaultConfig).1 = 0 ∧
      ¬ (borromean_score 0.9 0.9 0.1 defaultConfig).2 :=
  borromean_gate_fails_zero 0.9 0.9 0.1 defaultConfig
    (Or.inr (Or.inr (by norm_num [defaultConfig])))

/-- Claim C2: When all three factors strictly exceed their thresholds, the
gate passes and the risk is
`clip(lambda_mix * (H^alpha * L^beta * V^gamma)
      + (1 - lambda_mix) * kappa_synergy * min(H, L, V), 0, 1)`. -/
theorem borromean_gate_passes_formula (H L V : ℝ) (config : RiskConfig)
    (hH0 : 0 ≤ H) (hH1 : H ≤ 1) (hL0 : 0 ≤ L) (hL1 : L ≤ 1)
    (hV0 : 0 ≤ V) (hV1 : V ≤ 1)
    (hH : H > config.tau_H) (hL : L > config.tau_L) (hV : V > config.tau_V) :
    (borromean_score H L V config).2 ∧
      (borromean_score H L V config).1 =
        clip (config.lambda_mix * (H ^ config.alpha * L ^ config.beta * V ^ config.gamma)
          + (1 - config.lambda_mix) * config.kappa_synergy * min H (min L V)) 0 1 := by
  have hgate : H > config.tau_H ∧ L > config.tau_L ∧ V > config.tau_V := ⟨hH, hL, hV⟩
  refine ⟨hgate, ?_⟩
  simp only [borromean_score, if_pos hgate]
  congr 1
  ring

/-- Witness for C2 at H = L = V = 0.5 under the default configuration. -/
theorem borromean_gate_passes_formula_witness :
    (borromean_score 0.5 0.5 0.5 defaultConfig).2 ∧
      (borromean_score 0.5 0.5 0.5 defaultConfig).1 =
        clip (defaultConfig.lambda_mix *
            ((0.5 : ℝ) ^ defaultConfig.alpha * (0.5 : ℝ) ^ defaultConfig.beta *
              (0.5 : ℝ) ^ defaultConfig.gamma)
          + (1 - defaultConfig.lambda_mix) * defaultConfig.kappa_synergy *
            min (0.5 : ℝ) (min (0.5 : ℝ) (0.5 : ℝ))) 0 1 :=
  borromean_gate_passes_formula 0.5 0.5 0.5 defaultConfig
    (by norm_num) (by norm_num) (by norm_num) (by norm_num) (by norm_num) (by norm_num)
    (by norm_num [defaultConfig]) (by norm_num [defaultConfig]) (by norm_num [defaultConfig])

lemma default_raw_mono {a b c a' b' c' : ℝ} (ha : 0 ≤ a) (hb : 0 ≤ b) (hc : 0 ≤ c)
    (haa : a ≤ a') (hbb : b ≤ b') (hcc : c ≤ c') :
    0.7 * (a * b * c) + (1 - 0.7) * (0.3 * min a (min b c)) ≤
      0.7 * (a' * b' * c') + (1 - 0.7) * (0.3 * min a' (min b' c')) := by
  have hab : a * b ≤ a' * b' := mul_le_mul haa hbb hb (ha.trans haa)
  have habc : a * b * c ≤ a' * b' * c' :=
    mul_le_mul hab hcc hc (mul_nonneg (ha.trans haa) (hb.trans hbb))
  have hmin : min a (min b c) ≤ min a' (min b' c') :=
    min_le_min haa (min_le_min hbb hcc)
  linarith

/-- The first component of `borromean_score` under the default config,
once the gate is known to pass. -/
lemma borromean_fst_default (H L V : ℝ)
    (hH : defaultConfig.tau_H < H) (hL : defaultConfig.tau_L < L)
    (hV : defaultConfig.tau_V < V) :
    (borromean_score H L V defaultConfig).1 =
      clip (0.7 * (H * L * V) + (1 - 0.7) * (0.3 * min H (min L V))) 0 1 := by
  have hgate : H > defaultConfig.tau_H ∧ L > defaultConfig.tau_L ∧ V > defaultConfig.tau_V :=
    ⟨hH, hL, hV⟩
  simp only [borromean_score, if_pos hgate]
  norm_num [defaultConfig, Real.rpow_one]

/-- Claim C7: Under the default configuration, the risk returned by
`borromean_score` is monotonically non-decreasing in each of H, L, V
separately on the region where all factors strictly exceed their
thresholds. -/
theorem borromean_monotone_default (H H' L L' V V' : ℝ)
    (hH : defaultConfig.tau_H < H) (hH' : defaultConfig.tau_H < H')
    (hL : defaultConfig.tau_L < L) (hL' : defaultConfig.tau_L < L')
    (hV : defaultConfig.tau_V < V) (hV' : defaultConfig.tau_V < V') :
    (H ≤ H' →
      (borromean_score H L V defaultConfig).1 ≤ (borromean_score H' L V defaultConfig).1) ∧
    (L ≤ L' →
      (borromean_score H L V defaultConfig).1 ≤ (borromean_score H L' V defaultConfig).1) ∧
    (V ≤ V' →
      (borromean_score H L V defaultConfig).1 ≤ (borromean_score H L V' defaultConfig).1) := by
  have h0H : (0 : ℝ) ≤ H := le_of_lt (lt_trans (by norm_num [defaultConfig]) hH)
  have h0H' : (0 : ℝ) ≤ H' := le_of_lt (lt_trans (by norm_num [defaultConfig]) hH')
  have h0L : (0 : ℝ) ≤ L := le_of_lt (lt_trans (by norm_num [defaultConfig]) hL)
  have h0L' : (0 : ℝ) ≤ L' := le_of_lt (lt_trans (by norm_num [defaultConfig]) hL')
  have h0V : (0 : ℝ) ≤ V := le_of_lt (lt_trans (by norm_num [defaultConfig]) hV)
  have h0V' : (0 : ℝ) ≤ V' := le_of_lt (lt_trans (by norm_num [defaultConfig]) hV')
  refine ⟨fun hle => ?_, fun hle => ?_, fun hle => ?_⟩
  · rw [borromean_fst_default H L V hH hL hV, borromean_fst_default H' L V hH' hL hV]
    exact clip_mono (default_raw_mono h0H h0L h0V hle le_rfl le_rfl)
  · rw [borromean_fst_default H L V hH hL hV, borromean_fst_default H L' V hH hL' hV]
    exact clip_mono (default_raw_mono h0H h0L h0V le_rfl hle le_rfl)
  · rw [borromean_fst_default H L V hH hL hV, borromean_fst_default H L V' hH hL hV']
    exact clip_mono (default_raw_mono h0H h0L h0V le_rfl le_rfl hle)

/-- Witness for C7 at (0.4, 0.5) × (0.3, 0.6) × (0.4, 0.9). -/
theorem borromean_monotone_default_witness :
    ((0.4 : ℝ) ≤ 0.5 →
      (borromean_score 0.4 0.3 0.4 defaultConfig).1 ≤
        (borromean_score 0.5 0.3 0.4 defaultConfig).1) ∧
    ((0.3 : ℝ) ≤ 0.6 →
      (borromean_score 0.4 0.3 0.4 defaultConfig).1 ≤
        (borromean_score 0.4 0.6 0.4 defaultConfig).1) ∧
    ((0.4 : ℝ) ≤ 0.9 →
      (borromean_score 0.4 0.3 0.4 defaultConfig).1 ≤
        (borromean_score 0.4 0.3 0.9 defaultConfig).1) :=
  borromean_monotone_default 0.4 0.5 0.3 0.6 0.4 0.9
    (by norm_num [defaultConfig]) (by norm_num [defaultConfig])
    (by norm_num [defaultConfig]) (by norm_num [defaultConfig])
    (by norm_num [defaultConfig]) (by norm_num [defaultConfig])

/-- Claim C8: `compute_H` is the clip to [0,1] of
`0.4·logistic(slope; 0.15, 20) + 0.15·logistic(−curvature; 0.8, 0) +
0.15·lith_erod + 0.3·rain_exceed`, with
`logistic(x; k, x0) = 1/(1 + exp(−k(x − x0)))`; only the final sum is
clamped, the individual sub-terms are not. -/
theorem compute_H_formula (slope_deg curvature lith_erod rain_exceed : ℝ) :
    compute_H slope_deg curvature lith_erod rain_exceed =
      clip (0.4 * (1 / (1 + Real.exp (-(0.15) * (slope_deg - 20))))
        + 0.15 * (1 / (1 + Real.exp (-(0.8) * (-curvature - 0))))
        + 0.15 * lith_erod + 0.3 * rain_exceed) 0 1 := by
  simp only [compute_H, logistic]

/-! ### Local-lore evidentiary scoring (`ai_agents/lore_calculator.py`) -/

/-- Enumeration `SourceType` from `ai_agents/models.py`. -/
inductive SourceType where
  | historical
  | indigenous
  | newspaper
  | field_notes
  | oral_tradition
  | eyewitness
  | scientific
  | official
  | unknown
deriving DecidableEq

/-- Constant `Config.CULTURAL_MEMORY_ENABLED` from `ai_agents/config.py`. -/
def CULTURAL_MEMORY_ENABLED : Bool := true

/-- Constant `Config.CULTURAL_MEMORY_BASELINE`. -/
noncomputable def CULTURAL_MEMORY_BASELINE : ℝ := 0.20

/-- Constant `Config.CULTURAL_MEMORY_BOOST`. -/
noncomputable def CULTURAL_MEMORY_BOOST : ℝ := 0.18

/-- Constant `Config.CULTURAL_MEMORY_DECAY`. -/
noncomputable def CULTURAL_MEMORY_DECAY : ℝ := 200

/-- Constant `Config.CULTURAL_SOURCES`. -/
def CULTURAL_SOURCES : List SourceType :=
  [SourceType.oral_tradition, SourceType.indigenous]

/-- Test `source_type in Config.CULTURAL_SOURCES` where `source_type` may be
Python `None` (`None in [...]` is `False`). -/
def culturalSource (st : Option SourceType) : Bool :=
  match st with
  | none => false
  | some s => decide (s ∈ CULTURAL_SOURCES)

/-- Method `LoreScoreCalculator.calculate_recent_score`.  `years_ago` is typed
`float` in the source but explicitly compared against `None`, hence
`Option ℝ` here; `source_type` defaults to `None` at call sites that
omit it. -/
noncomputable def calculate_recent_score (years_ago : Option ℝ)
    (uncertainty_years : ℝ) (source_type : Option SourceType) : ℝ :=
  let min_recent_score : ℝ := 0.2
  let decay_rate : ℝ := 50
  match years_ago with
  | none => min_recent_score
  | some y =>
    if y < 0 then min_recent_score
    else
      let base0 := Real.exp (-y / decay_rate)
      let base1 :=
        if CULTURAL_MEMORY_ENABLED && culturalSource source_type then
          max base0 (CULTURAL_MEMORY_BASELINE +
            CULTURAL_MEMORY_BOOST * Real.exp (-y / CULTURAL_MEMORY_DECAY))
        else base0
      let base2 :=
        if uncertainty_years > 0 then
          base1 * (1 / (1 + uncertainty_years / 10))
        else base1
      let final_score := max base2 min_recent_score
      min (max final_score 0.1) 1

/-- Mapping `Config.SOURCE_CREDIBILITY` (every enum value is a key, so the
dictionary default 0.3 is unreachable). -/
noncomputable def SOURCE_CREDIBILITY : SourceType → ℝ
  | SourceType.scientific => 0.9
  | SourceType.official => 0.9
  | SourceType.historical => 0.8
  | SourceType.newspaper => 0.7
  | SourceType.field_notes => 0.7
  | SourceType.eyewitness => 0.65
  | SourceType.indigenous => 0.6
  | SourceType.oral_tradition => 0.4
  | SourceType.unknown => 0.2

/-- Method `LoreScoreCalculator.calculate_credibility_score`. -/
noncomputable def calculate_credibility_score (source_type : SourceType)
    (has_author has_url : Bool) (num_corroborating_sources : ℕ) : ℝ :=
  let base_credibility := SOURCE_CREDIBILITY source_type
  let verification_bonus : ℝ :=
    (if has_author then 0.05 else 0) + (if has_url then 0.05 else 0)
  let verification_bonus :=
    if num_corroborating_sources > 0 then
      verification_bonus +
        0.1 * (1 - Real.exp (-(num_corroborating_sources : ℝ) / 3))
    else verification_bonus
  let final_score := base_credibility + verification_bonus
  min (max final_score 0) 1

/-- Method `LoreScoreCalculator.calculate_spatial_score` (`sigma_d = 0.5`). -/
noncomputable def calculate_spatial_score (distance_km : Option ℝ) : ℝ :=
  match distance_km with
  | none => 0.5
  | some d =>
    if d < 0 then 0.5
    else if d = 0 then 1
    else
      let sigma_d : ℝ := 0.5
      let spatial_score := Real.exp (-d / sigma_d)
      min (max spatial_score 0) 1

/-- The fields of `LocalLoreExtraction` (`ai_agents/models.py`) consumed
by the score calculator. -/
structure LocalLoreExtraction where
  years_ago : Option ℝ
  event_date_uncertainty_years : Option ℝ
  source_type : SourceType
  source_author : Option String
  source_url : Option String
  distance_to_report : Option ℝ

/-- The scoring weights dictionary (`Config.LORE_WEIGHTS` keys). -/
structure LoreWeights where
  recent : ℝ
  credibility : ℝ
  spatial : ℝ

/-- Default `Config.LORE_WEIGHTS`: w1 = 0.35, w2 = 0.40, w3 = 0.25. -/
noncomputable def defaultLoreWeights : LoreWeights := ⟨0.35, 0.40, 0.25⟩

/-- The `LoreScore` value object computed by `calculate_l_score`.  The
Pydantic model in the source additionally validates each field against
`ge=0, le=1` and raises on violation; the raw computed values are what
is modelled here. -/
structure LoreScore where
  recent_score : ℝ
  credibility_score : ℝ
  spatial_score : ℝ
  l_score : ℝ

/-- Python truthiness of an optional string (`bool(x)`): `None` and the
empty string are falsy. -/
def pyTruthyStr (s : Option String) : Bool :=
  match s with
  | none => false
  | some str => !str.isEmpty

/-- Method `LoreScoreCalculator.calculate_l_score`.  Note that the source calls
`calculate_recent_score(lore.years_ago or 0, lore.event_date_uncertainty_years or 0)`
with only two positional arguments, so `source_type` takes its default
`None` here — the `source_type` of the record is not forwarded. -/
noncomputable def calculate_l_score (weights : LoreWeights)
    (lore : LocalLoreExtraction) : LoreScore :=
  let recent_score :=
    calculate_recent_score (some (lore.years_ago.getD 0))
      (lore.event_date_uncertainty_years.getD 0) none
  let credibility_score :=
    calculate_credibility_score lore.source_type
      (pyTruthyStr lore.source_author) (pyTruthyStr lore.source_url) 0
  let spatial_score := calculate_spatial_score lore.distance_to_report
  let l_score := weights.recent * recent_score +
    weights.credibility * credibility_score + weights.spatial * spatial_score
  ⟨recent_score, credibility_score, spatial_score, l_score⟩

lemma min_max_eq_clip (x : ℝ) : min (max x 0) 1 = clip x 0 1 := by
  rw [clip]
  rcases le_total x 0 with h | h
  · rw [max_eq_right h, min_eq_left (h.trans zero_le_one), max_eq_left h,
      min_eq_left zero_le_one]
  · rcases le_total x 1 with h1 | h1
    · rw [max_eq_left h, min_eq_left h1, max_eq_right h]
    · rw [max_eq_left h, min_eq_right h1, max_eq_right zero_le_one]

lemma exp_neg_two_lt : Real.exp (-2 : ℝ) < 0.2 := by
  have h1 := Real.exp_one_gt_d9
  have h2 : Real.exp (-2 : ℝ) = (Real.exp 1 * Real.exp 1)⁻¹ := by
    rw [Real.exp_neg, ← Real.exp_add]
    norm_num
  have hpos : (0 : ℝ) < Real.exp 1 * Real.exp 1 := by positivity
  have h5 : (5 : ℝ) < Real.exp 1 * Real.exp 1 := by nlinarith
  have h6 : (Real.exp 1 * Real.exp 1)⁻¹ < (5 : ℝ)⁻¹ := by
    exact inv_lt_inv_of_lt (by norm_num) h5
  rw [h2]
  nlinarith [h6]

lemma exp_neg_half_gt : (5 / 9 : ℝ) < Real.exp (-(1 / 2) : ℝ) := by
  have h1 := Real.exp_one_lt_d9
  have hpos := Real.exp_pos (1 / 2 : ℝ)
  have h2 : Real.exp (1 / 2 : ℝ) * Real.exp (1 / 2 : ℝ) = Real.exp 1 := by
    rw [← Real.exp_add]
    norm_num
  have h3 : Real.exp (1 / 2 : ℝ) < 9 / 5 := by nlinarith
  have h4 : Real.exp (-(1 / 2) : ℝ) = (Real.exp (1 / 2 : ℝ))⁻¹ := Real.exp_neg _
  rw [h4]
  nlinarith [mul_inv_cancel₀ (ne_of_gt hpos), inv_pos.mpr hpos]

/-- Claim C9: The spatial score is 0.5 for an unknown distance, exactly 1
at distance 0, `clip(exp(-d / 0.5), 0, 1)` for every positive distance,
and at d = 2 it equals `exp(-4)` — an exponential decay, not Gaussian. -/
theorem spatial_score_spec :
    calculate_spatial_score none = 0.5 ∧
    calculate_spatial_score (some 0) = 1 ∧
    (∀ d : ℝ, 0 < d →
      calculate_spatial_score (some d) = clip (Real.exp (-d / 0.5)) 0 1) ∧
    calculate_spatial_score (some 2) = Real.exp (-4 : ℝ) := by
  have heval : ∀ d : ℝ, 0 < d →
      calculate_spatial_score (some d) = clip (Real.exp (-d / 0.5)) 0 1 := by
    intro d hd
    rw [calculate_spatial_score]
    rw [if_neg (not_lt.mpr hd.le), if_neg (ne_of_gt hd)]
    exact min_max_eq_clip _
  refine ⟨rfl, ?_, heval, ?_⟩
  · rw [calculate_spatial_score]
    norm_num
  · rw [heval 2 (by norm_num)]
    have h4 : (-(2 : ℝ) / 0.5) = -4 := by norm_num
    rw [h4]
    have hle : Real.exp (-4 : ℝ) ≤ 1 := by
      have := Real.exp_le_exp.mpr (show (-4 : ℝ) ≤ 0 by norm_num)
      rwa [Real.exp_zero] at this
    exact clip_eq_self (Real.exp_pos _).le hle

/-- Witness for C9 at distance 1 km. -/
theorem spatial_score_spec_witness :
    calculate_spatial_score (some 1) = clip (Real.exp (-(1 : ℝ) / 0.5)) 0 1 :=
  spatial_score_spec.2.2.1 1 (by norm_num)

/-- An oral-tradition record, 100 years old, with no date uncertainty,
reported at the assessment location itself. -/
noncomputable def oralRecord : LocalLoreExtraction :=
  ⟨some 100, some 0, SourceType.oral_tradition, none, none, some 0⟩

/-- Claim C5, failing-input evaluation:  Scoring `oralRecord` through
`calculate_l_score` yields `recent_score = 0.2`: the record path never
forwards `source_type`, so the cultural-memory branch is dead there.
Calling `calculate_recent_score` directly with the source type of the
record — what the spec describes — gives a strictly larger score (> 0.3,
namely `0.2 + 0.18·exp(-100/200)`), and at `years_ago = 1000` the
cultural path stays at or above the 0.20 baseline. -/
theorem cultural_memory_not_applied_in_l_score :
    (calculate_l_score defaultLoreWeights oralRecord).recent_score = 0.2 ∧
    0.3 < calculate_recent_score (some 100) 0 (some SourceType.oral_tradition) ∧
    0.2 ≤ calculate_recent_score (some 1000) 0 (some SourceType.oral_tradition) := by
  refine ⟨?_, ?_, ?_⟩
  · show calculate_recent_score (some ((some (100 : ℝ)).getD 0))
        ((some (0 : ℝ)).getD 0) none = 0.2
    rw [calculate_recent_score]
    simp only [Option.getD_some, culturalSource, CULTURAL_MEMORY_ENABLED,
      Bool.and_false, Bool.true_and]
    rw [if_neg (by norm_num : ¬ (100 : ℝ) < 0), if_neg (by norm_num)]
    have hbase : Real.exp (-(100 : ℝ) / 50) = Real.exp (-2 : ℝ) := by norm_num
    rw [if_neg (Bool.false_ne_true), hbase]
    have h1 : max (Real.exp (-2 : ℝ)) 0.2 = 0.2 :=
      max_eq_right exp_neg_two_lt.le
    rw [h1]
    norm_num
  · simp only [calculate_recent_score]
    rw [if_neg (by norm_num : ¬ (100 : ℝ) < 0)]
    have hcult : (CULTURAL_MEMORY_ENABLED && culturalSource (some SourceType.oral_tradition)) = true := by
      rfl
    rw [if_pos hcult, if_neg (by norm_num : ¬ (0 : ℝ) > 0)]
    have hhalf : Real.exp (-(100 : ℝ) / CULTURAL_MEMORY_DECAY) = Real.exp (-(1 / 2) : ℝ) := by
      rw [CULTURAL_MEMORY_DECAY]
      norm_num
    have hlow : (0.3 : ℝ) < CULTURAL_MEMORY_BASELINE +
        CULTURAL_MEMORY_BOOST * Real.exp (-(100 : ℝ) / CULTURAL_MEMORY_DECAY) := by
      rw [hhalf, CULTURAL_MEMORY_BASELINE, CULTURAL_MEMORY_BOOST]
      nlinarith [exp_neg_half_gt]
    have hcb : (0.3 : ℝ) < max (Real.exp (-(100 : ℝ) / 50)) (CULTURAL_MEMORY_BASELINE +
        CULTURAL_MEMORY_BOOST * Real.exp (-(100 : ℝ) / CULTURAL_MEMORY_DECAY)) :=
      lt_of_lt_of_le hlow (le_max_right _ _)
    have hfinal : (0.3 : ℝ) < max (max (Real.exp (-(100 : ℝ) / 50)) (CULTURAL_MEMORY_BASELINE +
        CULTURAL_MEMORY_BOOST * Real.exp (-(100 : ℝ) / CULTURAL_MEMORY_DECAY))) 0.2 :=
      lt_of_lt_of_le hcb (le_max_left _ _)
    refine lt_min (lt_of_lt_of_le hfinal (le_max_left _ _)) (by norm_num)
  · simp only [calculate_recent_score]
    rw [if_neg (by norm_num : ¬ (1000 : ℝ) < 0)]
    have hcult : (CULTURAL_MEMORY_ENABLED && culturalSource (some SourceType.oral_tradition)) = true := by
      rfl
    rw [if_pos hcult, if_neg (by norm_num : ¬ (0 : ℝ) > 0)]
    refine le_min (le_trans ?_ (le_max_left _ _)) (by norm_num)
    exact le_max_right _ _

lemma recent_score_bounds (ya : Option ℝ) (u : ℝ) (st : Option SourceType) :
    0 ≤ calculate_recent_score ya u st ∧ calculate_recent_score ya u st ≤ 1 := by
  rcases ya with _ | y
  · rw [calculate_recent_score]
    norm_num
  · rw [calculate_recent_score]
    by_cases hy : y < 0
    · rw [if_pos hy]
      norm_num
    · rw [if_neg hy]
      exact ⟨le_min (le_trans (by norm_num) (le_max_right _ _)) (by norm_num),
        min_le_right _ _⟩

lemma credibility_score_bounds (st : SourceType) (ha hu : Bool) (n : ℕ) :
    0 ≤ calculate_credibility_score st ha hu n ∧
      calculate_credibility_score st ha hu n ≤ 1 := by
  rw [calculate_credibility_score]
  exact ⟨le_min (le_max_right _ _) (by norm_num), min_le_right _ _⟩

lemma spatial_score_bounds (d : Option ℝ) :
    0 ≤ calculate_spatial_score d ∧ calculate_spatial_score d ≤ 1 := by
  rcases d with _ | x
  · rw [calculate_spatial_score]
    norm_num
  · rw [calculate_spatial_score]
    by_cases h0 : x < 0
    · rw [if_pos h0]
      norm_num
    · rw [if_neg h0]
      by_cases h1 : x = 0
      · rw [if_pos h1]
        norm_num
      · rw [if_neg h1]
        exact ⟨le_min (le_max_right _ _) (by norm_num), min_le_right _ _⟩

/-- Claim C3, counterexample:  The raw `l_score` computed by
`calculate_l_score` is not clamped: with a weights override of
`{recent: 2, credibility: 2, spatial: 2}` and a fresh co-located
historical record, the computed `l_score` is 5.6, outside [0, 1]
(the Pydantic model in the source then rejects it instead of clamping). -/
theorem l_score_escapes_unit_interval :
    1 < (calculate_l_score ⟨2, 2, 2⟩
      ⟨some 0, some 0, SourceType.historical, none, none, some 0⟩).l_score := by
  have hrec : calculate_recent_score (some (0 : ℝ)) 0 none = 1 := by
    simp only [calculate_recent_score]
    rw [if_neg (lt_irrefl (0 : ℝ)), if_neg (by decide :
      ¬ ((CULTURAL_MEMORY_ENABLED && culturalSource none) = true)),
      if_neg (lt_irrefl (0 : ℝ))]
    rw [show (-(0 : ℝ) / 50) = 0 by norm_num, Real.exp_zero]
    rw [max_eq_left (by norm_num : (0.2 : ℝ) ≤ 1),
      max_eq_left (by norm_num : (0.1 : ℝ) ≤ 1), min_self]
  have hcred : calculate_credibility_score SourceType.historical false false 0 = 0.8 := by
    simp only [calculate_credibility_score]
    rw [if_neg (lt_irrefl 0)]
    norm_num [SOURCE_CREDIBILITY]
  have hspat : calculate_spatial_score (some (0 : ℝ)) = 1 := by
    simp only [calculate_spatial_score]
    rw [if_neg (lt_irrefl (0 : ℝ))]
    simp
  show 1 < (2 : ℝ) * calculate_recent_score (some ((some (0 : ℝ)).getD 0))
      ((some (0 : ℝ)).getD 0) none +
    2 * calculate_credibility_score SourceType.historical
      (pyTruthyStr none) (pyTruthyStr none) 0 +
    2 * calculate_spatial_score (some (0 : ℝ))
  simp only [Option.getD_some, pyTruthyStr]
  rw [hrec, hcred, hspat]
  norm_num

/-- Claim C3, amended:  The component scores (`recent`, `credibility`,
`spatial`) and the factor/risk scores (`H`, `L`, `V`, `R`) are clamped
into [0, 1] at their computation boundaries for all inputs; the combined
`l_score` is an unclamped weighted sum, and lies in [0, 1] provided the
weights are nonnegative and sum to at most 1 (the default weights
0.35/0.40/0.25 qualify). -/
theorem scores_in_unit_interval (w : LoreWeights) (lore : LocalLoreExtraction)
    (hw1 : 0 ≤ w.recent) (hw2 : 0 ≤ w.credibility) (hw3 : 0 ≤ w.spatial)
    (hsum : w.recent + w.credibility + w.spatial ≤ 1) :
    (0 ≤ (calculate_l_score w lore).recent_score ∧
      (calculate_l_score w lore).recent_score ≤ 1) ∧
    (0 ≤ (calculate_l_score w lore).credibility_score ∧
      (calculate_l_score w lore).credibility_score ≤ 1) ∧
    (0 ≤ (calculate_l_score w lore).spatial_score ∧
      (calculate_l_score w lore).spatial_score ≤ 1) ∧
    (0 ≤ (calculate_l_score w lore).l_score ∧
      (calculate_l_score w lore).l_score ≤ 1) ∧
    (∀ s c le re : ℝ, 0 ≤ compute_H s c le re ∧ compute_H s c le re ≤ 1) ∧
    (∀ x : ℝ, 0 ≤ compute_L x ∧ compute_L x ≤ 1) ∧
    (∀ e f : ℝ, 0 ≤ compute_V e f ∧ compute_V e f ≤ 1) ∧
    (∀ H L V : ℝ, ∀ config : RiskConfig,
      0 ≤ (borromean_score H L V config).1 ∧ (borromean_score H L V config).1 ≤ 1) := by
  have hr : 0 ≤ (calculate_l_score w lore).recent_score ∧
      (calculate_l_score w lore).recent_score ≤ 1 :=
    recent_score_bounds (some (lore.years_ago.getD 0))
      (lore.event_date_uncertainty_years.getD 0) none
  have hc : 0 ≤ (calculate_l_score w lore).credibility_score ∧
      (calculate_l_score w lore).credibility_score ≤ 1 :=
    credibility_score_bounds lore.source_type
      (pyTruthyStr lore.source_author) (pyTruthyStr lore.source_url) 0
  have hs : 0 ≤ (calculate_l_score w lore).spatial_score ∧
      (calculate_l_score w lore).spatial_score ≤ 1 :=
    spatial_score_bounds lore.distance_to_report
  have hproj : (calculate_l_score w lore).l_score =
      w.recent * (calculate_l_score w lore).recent_score +
      w.credibility * (calculate_l_score w lore).credibility_score +
      w.spatial * (calculate_l_score w lore).spatial_score := rfl
  refine ⟨hr, hc, hs, ⟨?_, ?_⟩, fun _ _ _ _ => ⟨clip_nonneg _, clip_le_one _⟩,
    fun _ => ⟨clip_nonneg _, clip_le_one _⟩,
    fun _ _ => ⟨clip_nonneg _, clip_le_one _⟩,
    fun _ _ _ _ => ⟨clip_nonneg _, clip_le_one _⟩⟩
  · have ha1 := mul_nonneg hw1 hr.1
    have ha2 := mul_nonneg hw2 hc.1
    have ha3 := mul_nonneg hw3 hs.1
    rw [hproj]
    linarith
  · have h1 : w.recent * (calculate_l_score w lore).recent_score ≤ w.recent :=
      mul_le_of_le_one_right hw1 hr.2
    have h2 : w.credibility * (calculate_l_score w lore).credibility_score ≤ w.credibility :=
      mul_le_of_le_one_right hw2 hc.2
    have h3 : w.spatial * (calculate_l_score w lore).spatial_score ≤ w.spatial :=
      mul_le_of_le_one_right hw3 hs.2
    rw [hproj]
    linarith

/-- Witness for the amended C3: the default weights satisfy the
hypotheses, on a concrete oral-tradition record. -/
theorem scores_in_unit_interval_witness :
    0 ≤ (calculate_l_score defaultLoreWeights oralRecord).l_score ∧
      (calculate_l_score defaultLoreWeights oralRecord).l_score ≤ 1 :=
  (scores_in_unit_interval defaultLoreWeights oralRecord
    (by norm_num [defaultLoreWeights]) (by norm_num [defaultLoreWeights])
    (by norm_num [defaultLoreWeights]) (by norm_num [defaultLoreWeights])).2.2.2.1

/-! ### Monte Carlo uncertainty (`mc_uncertainty`, `calculate_risk`)

NumPy statistics of an empty array are modelled as `Option.none`
(`np.mean`/`np.std` emit NaN, `np.percentile` raises `IndexError`); on a
nonempty list they are `some` of the usual value.  `np.percentile` uses
linear interpolation between order statistics, implemented below; no
theorem depends on the interpolated value itself. -/

/-- Function `np.mean`, `none` on the empty array (NaN in NumPy). -/
noncomputable def npMean : List ℝ → Option ℝ
  | [] => none
  | l => some (l.sum / l.length)

/-- Function `np.var` (population variance, `ddof = 0`), `none` on the empty array. -/
noncomputable def npVarList (l : List ℝ) : Option ℝ :=
  (npMean l).map (fun m => ((l.map (fun x => (x - m) ^ 2)).sum) / l.length)

/-- Function `np.std`, `none` on the empty array. -/
noncomputable def npStd (l : List ℝ) : Option ℝ :=
  (npVarList l).map Real.sqrt

/-- Function `np.percentile` with the default linear interpolation; `none` on the
empty array (NumPy raises `IndexError` there). -/
noncomputable def npPercentile (l : List ℝ) (q : ℝ) : Option ℝ :=
  match l with
  | [] => none
  | l =>
    let s := List.insertionSort (· ≤ ·) l
    let h := q / 100 * ((l.length : ℝ) - 1)
    let lo := s.getD ⌊h⌋.toNat 0
    let hi := s.getD ⌈h⌉.toNat 0
    some (lo + (h - (⌊h⌋ : ℝ)) * (hi - lo))

/-- Lines 261-270 of `risk_calculator.py`: normalise the three one-factor
variances to Sobol-style indices, falling back to the 0.33/0.33/0.34
split when the total variance is not positive. -/
noncomputable def sensitivity_indices (var_H var_L var_V : ℝ) : ℝ × ℝ × ℝ :=
  let total_var := var_H + var_L + var_V
  if 0 < total_var then
    (var_H / total_var, var_L / total_var, var_V / total_var)
  else
    (0.33, 0.33, 0.34)

/-- The dictionary returned by `mc_uncertainty`. -/
structure McResult where
  R_mean : ℝ
  R_std : ℝ
  R_p05 : ℝ
  R_p95 : ℝ
  H_sensitivity : ℝ
  L_sensitivity : ℝ
  V_sensitivity : ℝ

/-- The per-iteration risk samples of `mc_uncertainty`: each noise triple
perturbs all three factors, which are clipped back into [0,1] before
`borromean_score`. -/
noncomputable def mc_samples (H L V : ℝ) (config : RiskConfig)
    (noise : List (ℝ × ℝ × ℝ)) : List ℝ :=
  noise.map (fun t =>
    (borromean_score (clip (H + t.1) 0 1) (clip (L + t.2.1) 0 1)
      (clip (V + t.2.2) 0 1) config).1)

/-- One-factor samples for the sensitivity analysis: only iterations
`i < n_samples / 3` contribute, varying H alone. -/
noncomputable def mc_samples_H_only (H L V : ℝ) (config : RiskConfig)
    (noise : List (ℝ × ℝ × ℝ)) : List ℝ :=
  (noise.take (noise.length / 3)).map (fun t =>
    (borromean_score (clip (H + t.1) 0 1) L V config).1)

/-- One-factor samples varying L alone. -/
noncomputable def mc_samples_L_only (H L V : ℝ) (config : RiskConfig)
    (noise : List (ℝ × ℝ × ℝ)) : List ℝ :=
  (noise.take (noise.length / 3)).map (fun t =>
    (borromean_score H (clip (L + t.2.1) 0 1) V config).1)

/-- One-factor samples varying V alone. -/
noncomputable def mc_samples_V_only (H L V : ℝ) (config : RiskConfig)
    (noise : List (ℝ × ℝ × ℝ)) : List ℝ :=
  (noise.take (noise.length / 3)).map (fun t =>
    (borromean_score H L (clip (V + t.2.2) 0 1) config).1)

/-- Function `mc_uncertainty` from `risk_calculator.py`, derandomised over an
explicit list of noise triples (`n_samples` is its length).  The source
computes `np.var(...) if R_samples_X_only else 0.0`, i.e. 0 when the
one-factor list is empty, hence `getD 0`; it raises on an empty sample
array (`np.percentile`), hence `none`. -/
noncomputable def mc_uncertainty (H L V : ℝ) (config : RiskConfig)
    (noise : List (ℝ × ℝ × ℝ)) : Option McResult :=
  let R_samples := mc_samples H L V config noise
  match npMean R_samples, npStd R_samples,
      npPercentile R_samples 5, npPercentile R_samples 95 with
  | some R_mean, some R_std, some R_p05, some R_p95 =>
    let var_H := (npVarList (mc_samples_H_only H L V config noise)).getD 0
    let var_L := (npVarList (mc_samples_L_only H L V config noise)).getD 0
    let var_V := (npVarList (mc_samples_V_only H L V config noise)).getD 0
    let s := sensitivity_indices var_H var_L var_V
    some ⟨R_mean, R_std, R_p05, R_p95, s.1, s.2.1, s.2.2⟩
  | _, _, _, _ => none

/-- Model of the Python builtin `round(x, 4)`, here with round-half-up; it
differs from the Python round-half-to-even behaviour only at exact ties, which no theorem below
evaluates at. -/
noncomputable def round4 (x : ℝ) : ℝ := (round (x * 10000) : ℤ) / 10000

/-- The 4-tier `risk_level` thresholds of `calculate_risk`. -/
noncomputable def risk_level_of (R : ℝ) : String :=
  if R ≥ 0.8 then "severe"
  else if R ≥ 0.6 then "high"
  else if R ≥ 0.3 then "medium"
  else "low"

/-- The result dictionary of `calculate_risk` (the echoed `config` block
is omitted; `gate_passed` is the `Prop` gate). -/
structure RiskResult where
  H_score : ℝ
  L_score : ℝ
  V_score : ℝ
  R_score : ℝ
  R_std : ℝ
  R_p05 : ℝ
  R_p95 : ℝ
  H_sensitivity : ℝ
  L_sensitivity : ℝ
  V_sensitivity : ℝ
  risk_level : String
  gate_passed : Prop

/-- Function `calculate_risk` from `risk_calculator.py`, derandomised like
`mc_uncertainty` (the source fixes `n_samples = 300`).  When
`compute_uncertainty` is true the deterministic `R` is replaced by the
Monte Carlo mean before the risk level is derived; with an empty noise
list the source would raise inside `mc_uncertainty`, hence `none`. -/
noncomputable def calculate_risk (slope_deg curvature : ℝ) (lith_class : ℤ)
    (rain_exceed lore_signal exposure fragility : ℝ) (config : RiskConfig)
    (compute_uncertainty : Bool) (noise : List (ℝ × ℝ × ℝ)) :
    Option RiskResult :=
  let lith_erod := ((lith_class : ℝ) - 1) / 4
  let H := compute_H slope_deg curvature lith_erod rain_exceed
  let L := compute_L lore_signal
  let V := compute_V exposure fragility
  let det := borromean_score H L V config
  let R := det.1
  let gate_passed := det.2
  if compute_uncertainty then
    match mc_uncertainty H L V config noise with
    | none => none
    | some u =>
      some ⟨round4 H, round4 L, round4 V, round4 u.R_mean, round4 u.R_std,
        round4 u.R_p05, round4 u.R_p95, round4 u.H_sensitivity,
        round4 u.L_sensitivity, round4 u.V_sensitivity,
        risk_level_of u.R_mean, gate_passed⟩
  else
    some ⟨round4 H, round4 L, round4 V, round4 R, 0, 0, 0, 0, 0, 0,
      risk_level_of R, gate_passed⟩

/-- Claim C4: `mc_uncertainty` with `n_samples = 0` (an empty noise list)
does not return zeroed defaults: the sample array is empty, `np.mean` /
`np.std` produce NaN and `np.percentile` raises `IndexError`, modelled
here as `none`. -/
theorem mc_uncertainty_empty_fails (H L V : ℝ) (config : RiskConfig) :
    mc_uncertainty H L V config [] = none := rfl

lemma sensitivity_indices_sum (vH vL vV : ℝ) :
    (sensitivity_indices vH vL vV).1 + (sensitivity_indices vH vL vV).2.1 +
      (sensitivity_indices vH vL vV).2.2 = 1 := by
  simp only [sensitivity_indices]
  split
  · rename_i htot
    field_simp
  · norm_num

/-- Claim C6: The sensitivity indices returned by `mc_uncertainty` are the
three one-factor sample variances normalised by their total (the
0.33/0.33/0.34 fallback applies when the total is not positive), and in
either case they sum exactly to 1. -/
theorem mc_sensitivities_sum_to_one (H L V : ℝ) (config : RiskConfig)
    (noise : List (ℝ × ℝ × ℝ)) (r : McResult)
    (h : mc_uncertainty H L V config noise = some r) :
    (r.H_sensitivity, r.L_sensitivity, r.V_sensitivity) =
      sensitivity_indices
        ((npVarList (mc_samples_H_only H L V config noise)).getD 0)
        ((npVarList (mc_samples_L_only H L V config noise)).getD 0)
        ((npVarList (mc_samples_V_only H L V config noise)).getD 0) ∧
    r.H_sensitivity + r.L_sensitivity + r.V_sensitivity = 1 := by
  rcases noise with _ | ⟨t, ts⟩
  · exact Option.noConfusion h
  · have hstruct : ∃ u, mc_uncertainty H L V config (t :: ts) = some u ∧
        (u.H_sensitivity, u.L_sensitivity, u.V_sensitivity) =
          sensitivity_indices
            ((npVarList (mc_samples_H_only H L V config (t :: ts))).getD 0)
            ((npVarList (mc_samples_L_only H L V config (t :: ts))).getD 0)
            ((npVarList (mc_samples_V_only H L V config (t :: ts))).getD 0) :=
      ⟨_, rfl, rfl⟩
    obtain ⟨u, hu, hsens⟩ := hstruct
    rw [hu] at h
    obtain rfl : u = r := by injection h
    refine ⟨hsens, ?_⟩
    have h1 := congrArg Prod.fst hsens
    have h2 := congrArg (fun p : ℝ × ℝ × ℝ => p.2.1) hsens
    have h3 := congrArg (fun p : ℝ × ℝ × ℝ => p.2.2) hsens
    simp only at h1 h2 h3
    rw [h1, h2, h3]
    exact sensitivity_indices_sum _ _ _

/-- Witness for C6 with a single zero-noise sample at H = L = V = 0.5. -/
theorem mc_sensitivities_sum_to_one_witness :
    ∃ r, mc_uncertainty 0.5 0.5 0.5 defaultConfig [(0, 0, 0)] = some r ∧
      r.H_sensitivity + r.L_sensitivity + r.V_sensitivity = 1 :=
  ⟨_, rfl,
    (mc_sensitivities_sum_to_one 0.5 0.5 0.5 defaultConfig [(0, 0, 0)] _ rfl).2⟩

/-- Structural evaluation of `calculate_risk` with uncertainty enabled on
a nonempty noise list: the Monte Carlo dictionary exists, the returned
`R_score` is the rounded Monte Carlo mean (the mean of the perturbed
samples), `risk_level` is derived from that mean, and `gate_passed` is
the deterministic gate. -/
lemma calc_risk_mc_cons (s c : ℝ) (li : ℤ) (ra lo ex fr : ℝ)
    (cfg : RiskConfig) (t : ℝ × ℝ × ℝ) (ts : List (ℝ × ℝ × ℝ)) :
    ∃ u res,
      mc_uncertainty (compute_H s c (((li : ℝ) - 1) / 4) ra) (compute_L lo)
        (compute_V ex fr) cfg (t :: ts) = some u ∧
      calculate_risk s c li ra lo ex fr cfg true (t :: ts) = some res ∧
      u.R_mean = (mc_samples (compute_H s c (((li : ℝ) - 1) / 4) ra)
          (compute_L lo) (compute_V ex fr) cfg (t :: ts)).sum /
        (mc_samples (compute_H s c (((li : ℝ) - 1) / 4) ra)
          (compute_L lo) (compute_V ex fr) cfg (t :: ts)).length ∧
      res.R_score = round4 u.R_mean ∧
      res.risk_level = risk_level_of u.R_mean ∧
      res.gate_passed = (borromean_score (compute_H s c (((li : ℝ) - 1) / 4) ra)
        (compute_L lo) (compute_V ex fr) cfg).2 :=
  ⟨_, _, rfl, rfl, rfl, rfl, rfl, rfl⟩

lemma clip_lower {x c : ℝ} (hc : c ≤ 1) (h : c ≤ x) : c ≤ clip x 0 1 :=
  le_trans (le_min h hc) (le_max_right _ _)

lemma round4_pos {x : ℝ} (hx : 0.2 ≤ x) : 0 < round4 x := by
  rw [round4]
  have h := abs_sub_round (x * 10000)
  have habs := abs_le.mp h
  have h2 : (1999 : ℝ) ≤ (round (x * 10000) : ℝ) := by nlinarith
  exact div_pos (lt_of_lt_of_le (by norm_num) h2) (by norm_num)

lemma compute_H_inst_bounds :
    0.45 < compute_H 60 (-10) 1 1 ∧ compute_H 60 (-10) 1 1 < 1 := by
  have hs1 := logistic_pos 60 0.15 20
  have hs2 := logistic_lt_one 60 0.15 20
  have hc1 := logistic_pos (-(-10 : ℝ)) 0.8 0
  have hc2 := logistic_lt_one (-(-10 : ℝ)) 0.8 0
  simp only [compute_H]
  rw [clip_eq_self (by nlinarith) (by nlinarith)]
  constructor <;> nlinarith

/-- Claim C10: With `compute_uncertainty = true`, `calculate_risk` returns
as `R_score` the (rounded) Monte Carlo mean of the perturbed samples —
not the deterministic `borromean_score` — and derives `risk_level` from
that mean.  Consequently (second conjunct, with `lore_signal = 0.25`
sitting exactly at `tau_L` and 300 noise draws of `+0.5` on L), the
returned `R_score` is strictly positive even though `gate_passed` is
false and the deterministic risk is 0. -/
theorem calculate_risk_uses_mc_mean :
    (∀ (s c : ℝ) (li : ℤ) (ra lo ex fr : ℝ) (cfg : RiskConfig)
      (t : ℝ × ℝ × ℝ) (ts : List (ℝ × ℝ × ℝ)),
      ∃ u res,
        mc_uncertainty (compute_H s c (((li : ℝ) - 1) / 4) ra) (compute_L lo)
          (compute_V ex fr) cfg (t :: ts) = some u ∧
        calculate_risk s c li ra lo ex fr cfg true (t :: ts) = some res ∧
        u.R_mean = (mc_samples (compute_H s c (((li : ℝ) - 1) / 4) ra)
            (compute_L lo) (compute_V ex fr) cfg (t :: ts)).sum /
          (mc_samples (compute_H s c (((li : ℝ) - 1) / 4) ra)
            (compute_L lo) (compute_V ex fr) cfg (t :: ts)).length ∧
        res.R_score = round4 u.R_mean ∧
        res.risk_level = risk_level_of u.R_mean) ∧
    (∃ res, calculate_risk 60 (-10) 5 1 0.25 1 1 defaultConfig true
        (((0 : ℝ), (0.5 : ℝ), (0 : ℝ)) ::
          List.replicate 299 ((0 : ℝ), (0.5 : ℝ), (0 : ℝ))) = some res ∧
      0 < res.R_score ∧ ¬ res.gate_passed ∧
      (borromean_score (compute_H 60 (-10) ((((5 : ℤ) : ℝ) - 1) / 4) 1)
        (compute_L 0.25) (compute_V 1 1) defaultConfig).1 = 0) := by
  constructor
  · intro s c li ra lo ex fr cfg t ts
    obtain ⟨u, res, hmc, hcalc, hmean, hscore, hlevel, _⟩ :=
      calc_risk_mc_cons s c li ra lo ex fr cfg t ts
    exact ⟨u, res, hmc, hcalc, hmean, hscore, hlevel⟩
  · obtain ⟨u, res, hmc, hcalc, hmean, hscore, hlevel, hgate⟩ :=
      calc_risk_mc_cons 60 (-10) 5 1 0.25 1 1 defaultConfig
        ((0 : ℝ), (0.5 : ℝ), (0 : ℝ)) (List.replicate 299 ((0 : ℝ), (0.5 : ℝ), (0 : ℝ)))
    have hlith : (((5 : ℤ) : ℝ) - 1) / 4 = 1 := by norm_num
    have hHc : (0.45 : ℝ) < compute_H 60 (-10) ((((5 : ℤ) : ℝ) - 1) / 4) 1 ∧
        compute_H 60 (-10) ((((5 : ℤ) : ℝ) - 1) / 4) 1 < 1 := by
      rw [hlith]
      exact compute_H_inst_bounds
    have hLc : compute_L 0.25 = (0.25 : ℝ) := by
      simp only [compute_L]
      exact clip_eq_self (by norm_num) (by norm_num)
    have hVc : compute_V 1 1 = (1 : ℝ) := by
      simp only [compute_V]
      rw [show (0.7 : ℝ) * 1 + 0.3 * 1 = 1 by norm_num]
      exact clip_eq_self (by norm_num) (by norm_num)
    have hsam : mc_samples (compute_H 60 (-10) ((((5 : ℤ) : ℝ) - 1) / 4) 1)
        (compute_L 0.25) (compute_V 1 1) defaultConfig
        (((0 : ℝ), (0.5 : ℝ), (0 : ℝ)) ::
          List.replicate 299 ((0 : ℝ), (0.5 : ℝ), (0 : ℝ))) =
        List.replicate 300
          ((borromean_score
            (clip (compute_H 60 (-10) ((((5 : ℤ) : ℝ) - 1) / 4) 1 + 0) 0 1)
            (clip (compute_L 0.25 + 0.5) 0 1)
            (clip (compute_V 1 1 + 0) 0 1) defaultConfig).1) := by
      rw [mc_samples, List.map_cons, List.map_replicate]
      rfl
    have hHs : clip (compute_H 60 (-10) ((((5 : ℤ) : ℝ) - 1) / 4) 1 + 0) 0 1 =
        compute_H 60 (-10) ((((5 : ℤ) : ℝ) - 1) / 4) 1 := by
      rw [add_zero]
      exact clip_eq_self (by linarith [hHc.1]) (le_of_lt hHc.2)
    have hLs : clip (compute_L 0.25 + 0.5) 0 1 = 0.75 := by
      rw [hLc, show (0.25 : ℝ) + 0.5 = 0.75 by norm_num]
      exact clip_eq_self (by norm_num) (by norm_num)
    have hVs : clip (compute_V 1 1 + 0) 0 1 = 1 := by
      rw [hVc, add_zero]
      exact clip_eq_self (by norm_num) (by norm_num)
    have hmeanval : u.R_mean =
        (borromean_score (compute_H 60 (-10) ((((5 : ℤ) : ℝ) - 1) / 4) 1)
          (0.75 : ℝ) (1 : ℝ) defaultConfig).1 := by
      rw [hmean, hsam, List.sum_replicate, List.length_replicate, nsmul_eq_mul]
      rw [mul_div_cancel_left₀ _ (by norm_num : ((300 : ℕ) : ℝ) ≠ 0)]
      rw [hHs, hLs, hVs]
    have htauH : defaultConfig.tau_H < compute_H 60 (-10) ((((5 : ℤ) : ℝ) - 1) / 4) 1 := by
      have h45 := hHc.1
      simp only [defaultConfig]
      norm_num
      linarith
    have hrv : (0.2 : ℝ) ≤ u.R_mean := by
      rw [hmeanval]
      rw [borromean_fst_default _ _ _ htauH (by simp only [defaultConfig]; norm_num)
        (by simp only [defaultConfig]; norm_num)]
      apply clip_lower (by norm_num)
      have hmin : (0 : ℝ) ≤ min (compute_H 60 (-10) ((((5 : ℤ) : ℝ) - 1) / 4) 1)
          (min (0.75 : ℝ) (1 : ℝ)) :=
        le_min (by linarith [hHc.1]) (by norm_num)
      nlinarith [hHc.1]
    have hngate : ¬ (compute_H 60 (-10) ((((5 : ℤ) : ℝ) - 1) / 4) 1 > defaultConfig.tau_H ∧
        compute_L 0.25 > defaultConfig.tau_L ∧ compute_V 1 1 > defaultConfig.tau_V) := by
      intro hg
      have hgl := hg.2.1
      rw [hLc] at hgl
      simp only [defaultConfig] at hgl
      norm_num at hgl
    refine ⟨res, hcalc, ?_, ?_, ?_⟩
    · rw [hscore]
      exact round4_pos hrv
    · rw [hgate]
      simp only [borromean_score]
      exact hngate
    · simp only [borromean_score, if_neg hngate, clip_zero_eq]

end GeoRisk
